import Mathlib

/-!
Verification of the invoice document-reader pipeline (`src/lambda_function.py`)
against its natural-language specification.

The Python source is shallowly embedded: Python strings are `List Char`,
JSON-like Python values are `PyObj`, Python dicts are insertion-ordered
association lists, `datetime` values are a civil-day count plus seconds in
the day, and the three network collaborators (S3, the Gemini model call,
the webhook POST) as well as the stdlib `json.loads` decoder are supplied
as oracle parameters.  All definitions are executable.
-/

namespace FacturaReader

/-- Python strings are modelled as lists of characters. -/
abbrev Str := List Char

/-- ASCII whitespace recognised by Python `str.strip()` (the source only
ever strips ASCII text coming from the model response). -/
def pySpace (c : Char) : Bool :=
  c = ' ' ∨ c = '\t' ∨ c = '\n' ∨ c = '\r' ∨ c = '\x0b' ∨ c = '\x0c'

/-- Python `str.strip()`: drop leading and trailing whitespace. -/
def pyStrip (s : Str) : Str :=
  ((s.dropWhile pySpace).reverse.dropWhile pySpace).reverse

/-- Fuelled worker for Python `str.replace(pat, '')` with a non-empty
pattern: scan left to right, deleting non-overlapping occurrences.
The fuel is only there to make the recursion structural; it never runs
out when it starts at the length of the string. -/
def raGo (pat : Str) : Nat → Str → Str
  | _, [] => []
  | 0, s => s
  | fuel + 1, c :: rest =>
    if pat ≠ [] ∧ pat.isPrefixOf (c :: rest) then
      raGo pat fuel ((c :: rest).drop pat.length)
    else
      c :: raGo pat fuel rest

/-- Python `s.replace(pat, '')` for a non-empty pattern `pat`. -/
def replaceAll (pat : Str) (s : Str) : Str :=
  raGo pat s.length s

/-- The literal three-backtick code-fence marker. -/
def fence3 : Str := "```".data

/-- The literal "```json" opening code-fence marker. -/
def fenceJson : Str := "```json".data

/-- Line 381 of the source: clean the raw Gemini text,
`raw.strip().replace('```json', '').replace('```', '').strip()`. -/
def cleanResponseText (s : Str) : Str :=
  pyStrip (replaceAll fence3 (replaceAll fenceJson (pyStrip s)))

/-- Python `str.split(sep)` for a one-character separator. -/
def splitOnChar (sep : Char) : Str → List Str
  | [] => [[]]
  | c :: rest =>
    let r := splitOnChar sep rest
    if c = sep then [] :: r
    else
      match r with
      | h :: t => (c :: h) :: t
      | [] => [[c]]

/-- ASCII decimal digit test (`str.isdigit` on the ASCII range). -/
def isDigitChar (c : Char) : Bool := '0' ≤ c ∧ c ≤ '9'

/-- Python `str.isdigit()`: false on the empty string, else all digits. -/
def pyIsdigit (s : Str) : Bool := ¬ s.isEmpty ∧ s.all isDigitChar

/-- Python `str.upper()` (ASCII). -/
def pyUpper (s : Str) : Str := s.map Char.toUpper

/-- Python `str.lower()` (ASCII). -/
def pyLower (s : Str) : Str := s.map Char.toLower

/-- Numeric value of an all-digit string, as `int(...)` computes it. -/
def digitsToNat (s : Str) : Nat :=
  s.foldl (fun n c => n * 10 + (c.toNat - 48)) 0

/-- Python `str(n)` for a natural number (leading zeros disappear because
the value, not the original digit string, is printed). -/
def natRepr (n : Nat) : Str := Nat.toDigits 10 n

/-- Python `str(n)` for an integer. -/
def intRepr (n : Int) : Str :=
  if n < 0 then '-' :: natRepr n.natAbs else natRepr n.natAbs

/-! ## Tax-ID (RUT) validator, `validar_formato_rut` (source lines 81-134) -/

/-- Lines 91-103: clean the RUT of dots and spaces
(`replace('.', '').replace(' ', '').strip()`) and split it into the
numeric portion and the check portion: at the hyphen when one is present
(a `split('-')` that does not produce exactly two parts raises and is
caught, giving `None`), otherwise last character versus the rest
(requiring length ≥ 2). -/
def rutParts (s : Str) : Option (Str × Str) :=
  let limpio := pyStrip (s.filter fun c => c ≠ '.' ∧ c ≠ ' ')
  if limpio.contains '-' then
    match splitOnChar '-' limpio with
    | [numero, dv] => some (numero, dv)
    | _ => none
  else
    if limpio.length < 2 then none
    else
      match limpio.reverse with
      | dv :: _ => some (limpio.dropLast, [dv])
      | [] => none

/-- Lines 122-128: insert a thousands separator every three digits,
counting from the right, exactly as the enumerate-over-reversed loop
does. `i` is the loop index, `acc` the string built so far. -/
def groupDotsGo : Nat → Str → Str → Str
  | _, [], acc => acc
  | i, d :: rest, acc =>
    groupDotsGo (i + 1) rest
      (d :: (if i > 0 ∧ i % 3 = 0 then '.' :: acc else acc))

/-- Thousands-separator formatting of a digit string. -/
def groupDots (digits : Str) : Str := groupDotsGo 0 digits.reverse []

/-- Lines 105-130: checks on the split parts and final formatting. -/
def rutCore (s : Str) : Option Str :=
  match rutParts s with
  | none => none
  | some (numero, dv) =>
    -- line 106: the numeric portion must be all digits
    if ¬ pyIsdigit numero then none
    -- line 110: 7-8 digits
    else if numero.length < 7 ∨ numero.length > 8 then none
    -- line 114: `dv.isdigit() or dv.upper() == 'K'`
    else if ¬ (pyIsdigit dv ∨ pyUpper dv = ['K']) then none
    -- lines 118-119: `int(numero) < 1000000`
    else if digitsToNat numero < 1000000 then none
    -- lines 122-130: format `str(int(numero))` with dots, append `-DV`
    else some (groupDots (natRepr (digitsToNat numero)) ++ '-' :: pyUpper dv)

/-! ## Python/JSON values -/

/-- JSON-decodable Python values as they flow through the pipeline:
`None`, strings, numbers (ints and floats collapsed to `ℚ`), and
insertion-ordered dicts. -/
inductive PyObj where
  | none : PyObj
  | str : Str → PyObj
  | num : ℚ → PyObj
  | dict : List (Str × PyObj) → PyObj
deriving Repr

/-- Insertion-ordered Python dict. -/
abbrev PyDict := List (Str × PyObj)

/-- `d[k]` lookup (first matching key). -/
def dictGet (d : PyDict) (k : Str) : Option PyObj :=
  match d with
  | [] => Option.none
  | (k', v) :: t => if k' = k then some v else dictGet t k

/-- Python `d.get(k, default)`: the stored value — even when it is
`None` — if the key is present, otherwise the default. -/
def dictGetD (d : PyDict) (k : Str) (dflt : PyObj) : PyObj :=
  (dictGet d k).getD dflt

/-- `d[k] = v` on an insertion-ordered dict: update in place when the key
exists, append otherwise. -/
def dictSet (d : PyDict) (k : Str) (v : PyObj) : PyDict :=
  if (dictGet d k).isSome then
    d.map fun kv => if kv.1 = k then (k, v) else kv
  else d ++ [(k, v)]

/-- Python truthiness for the values above. -/
def truthy : PyObj → Bool
  | .none => false
  | .str s => ¬ s.isEmpty
  | .num q => q ≠ 0
  | .dict d => ¬ d.isEmpty

/-- Python `v == "literal"` for a string literal (false on non-strings). -/
def pyEqStr (v : PyObj) (s : Str) : Bool :=
  match v with
  | .str t => t = s
  | _ => false

/-- Lookup inside a `PyObj` that should be a dict (`Option.none` if the
value is not a dict or the key is missing). -/
def objGet (v : PyObj) (k : Str) : Option PyObj :=
  match v with
  | .dict d => dictGet d k
  | _ => Option.none

/-- Python `str(x)` for a numeric value, modelled exactly for integers
and for rationals with an exact finite decimal expansion (which covers
every float the JSON decoder can produce); other rationals — which no
Python float represents — fall back to a fraction notation. -/
def numRepr (q : ℚ) : Str :=
  if q.den = 1 then intRepr q.num
  else
    match (List.range 19).find? (fun k => (q * (10 : ℚ) ^ (k + 1)).den = 1) with
    | some k =>
      let scaled : Int := (q * (10 : ℚ) ^ (k + 1)).num
      let digits := natRepr scaled.natAbs
      let digits := List.replicate (k + 2 - digits.length) '0' ++ digits
      let intPart := digits.dropLast.take (digits.length - (k + 1))
      let fracPart := digits.drop (digits.length - (k + 1))
      (if q < 0 then ['-'] else []) ++ intPart ++ '.' :: fracPart
    | Option.none => intRepr q.num ++ '/' :: intRepr (q.den : Int)

/-- `validar_formato_rut` (lines 81-134) at the Python-value level:
`None` and other falsy inputs return `None` (line 87); strings go through
the cleaning/splitting/checking pipeline; numbers go through `str(...)`
first (line 92); a dict's `str(...)` begins with a brace and therefore
never survives the digit checks. -/
def validar_formato_rut (v : PyObj) : Option Str :=
  if ¬ truthy v then Option.none
  else
    match v with
    | .str s => rutCore s
    | .num q => rutCore (numRepr q)
    | _ => Option.none

/-! ## Dates and `datetime` (used by `procesar_fechas_factura`, lines 24-79) -/

/-- Gregorian leap year. -/
def isLeap (y : Int) : Bool := y % 4 = 0 ∧ (y % 100 ≠ 0 ∨ y % 400 = 0)

/-- Length of a month, as `datetime` validates it. -/
def daysInMonth (y m : Int) : Int :=
  if m = 2 then (if isLeap y then 29 else 28)
  else if m = 4 ∨ m = 6 ∨ m = 9 ∨ m = 11 then 30
  else 31

/-- Civil date to days since 1970-01-01 (proleptic Gregorian). -/
def daysFromCivil (y m d : Int) : Int :=
  let y := y - (if m ≤ 2 then 1 else 0)
  let era := Int.fdiv y 400
  let yoe := y - era * 400
  let doy := Int.fdiv (153 * (m + (if m > 2 then -3 else 9)) + 2) 5 + d - 1
  let doe := yoe * 365 + Int.fdiv yoe 4 - Int.fdiv yoe 100 + doy
  era * 146097 + doe - 719468

/-- Days since 1970-01-01 back to a civil date `(y, m, d)`. -/
def civilFromDays (z : Int) : Int × Int × Int :=
  let z := z + 719468
  let era := Int.fdiv z 146097
  let doe := z - era * 146097
  let yoe := Int.fdiv (doe - Int.fdiv doe 1460 + Int.fdiv doe 36524 - Int.fdiv doe 146096) 365
  let y := yoe + era * 400
  let doy := doe - (365 * yoe + Int.fdiv yoe 4 - Int.fdiv yoe 100)
  let mp := Int.fdiv (5 * doy + 2) 153
  let d := doy - Int.fdiv (153 * mp + 2) 5 + 1
  let m := mp + (if mp < 10 then 3 else -9)
  (y + (if m ≤ 2 then 1 else 0), m, d)

/-- Zero-padded decimal rendering of a non-negative integer. -/
def padNum (width : Nat) (n : Int) : Str :=
  let s := natRepr n.natAbs
  List.replicate (width - s.length) '0' ++ s

/-- `datetime.strftime('%Y-%m-%d')` of a midnight datetime given as a day
count. -/
def fmtDate (days : Int) : Str :=
  let (y, m, d) := civilFromDays days
  padNum 4 y ++ '-' :: (padNum 2 m ++ '-' :: padNum 2 d)

/-- Parse exactly four decimal digits (the `%Y` directive). -/
def parse4Digits : Str → Option (Nat × Str)
  | a :: b :: c :: d :: rest =>
    if isDigitChar a ∧ isDigitChar b ∧ isDigitChar c ∧ isDigitChar d then
      some (digitsToNat [a, b, c, d], rest)
    else Option.none
  | _ => Option.none

/-- The `%m` / `%d` directives: a two-digit match is preferred when its
value is admissible for the directive, else a single non-zero digit.
(The literal `-` separator that follows makes backtracking irrelevant:
when two digits are available and admissible, the one-digit parse would
place a digit where `-` is required.) -/
def parseNum2or1 (lo hi : Nat) : Str → Option (Nat × Str)
  | a :: b :: rest =>
    if isDigitChar a ∧ isDigitChar b ∧ lo ≤ digitsToNat [a, b] ∧ digitsToNat [a, b] ≤ hi then
      some (digitsToNat [a, b], rest)
    else if isDigitChar a ∧ digitsToNat [a] ≥ 1 then some (digitsToNat [a], b :: rest)
    else Option.none
  | [a] => if isDigitChar a ∧ digitsToNat [a] ≥ 1 then some (digitsToNat [a], []) else Option.none
  | [] => Option.none

/-- `datetime.strptime(s, '%Y-%m-%d')` as a day count: the format must
match the whole string (`%m` admits 1-12, `%d` admits 1-31) and the
`datetime` constructor then requires year ≥ 1 and a day that exists in
the month; any violation raises `ValueError`, i.e. `Option.none`. -/
def strptimeDate (s : Str) : Option Int :=
  match parse4Digits s with
  | Option.none => Option.none
  | some (y, r1) =>
    match r1 with
    | '-' :: r2 =>
      match parseNum2or1 1 12 r2 with
      | Option.none => Option.none
      | some (m, r3) =>
        match r3 with
        | '-' :: r4 =>
          match parseNum2or1 1 31 r4 with
          | Option.none => Option.none
          | some (d, r5) =>
            if r5 = [] ∧ 1 ≤ y ∧ (d : Int) ≤ daysInMonth (y : Int) (m : Int) then
              some (daysFromCivil (y : Int) (m : Int) (d : Int))
            else Option.none
        | _ => Option.none
    | _ => Option.none

/-- A `datetime`: a civil day count and the seconds elapsed in that day
(`secs < 86400` is assumed wherever it matters). -/
structure Dt where
  days : Int
  secs : Nat
deriving Repr

/-- Total seconds of a datetime, the quantity `datetime` comparison and
subtraction reduce to. -/
def dtSecs (t : Dt) : Int := t.days * 86400 + t.secs

/-- `timedelta.days` of the difference of two datetimes (floor division,
as `timedelta` normalises). -/
def diffDays (a b : Dt) : Int := Int.fdiv (dtSecs a - dtSecs b) 86400

/-- Lines 34-49: each date field is truthiness-checked, then parsed with
`strptime`; a `ValueError` (unparsable string) degrades to `None` with a
warning, but a truthy non-string raises `TypeError`, which escapes the
inner `except ValueError` and lands in the outer handler of lines 72-79.
`Except.error` is that escaping exception. -/
def parseDateField : PyObj → Except Unit (Option Int)
  | .none => .ok Option.none
  | .str s => if s.isEmpty then .ok Option.none else .ok (strptimeDate s)
  | .num q => if q = 0 then .ok Option.none else .error ()
  | .dict d => if d.isEmpty then .ok Option.none else .error ()

/-- `procesar_fechas_factura` (lines 24-79): parse both dates, derive a
missing due date as emission + 30 days, compute the overdue-day count
against `datetime.now()` (passed in as `now`), and fall back to the
all-null dict of lines 74-79 if anything raised. -/
def procesar_fechas_factura (invoice_date due_date : PyObj) (now : Dt) : PyDict :=
  match parseDateField invoice_date, parseDateField due_date with
  | .ok fe, .ok fv0 =>
    -- line 52: `if not fecha_vencimiento and fecha_emision`
    let fv : Option Int :=
      match fv0, fe with
      | Option.none, some d => some (d + 30)
      | _, _ => fv0
    -- lines 56-63: days overdue
    let dias : Int :=
      match fv with
      | some v =>
        if dtSecs now > v * 86400 then diffDays now ⟨v, 0⟩ else 0
      | Option.none => 0
    [("invoice_date".data, match fe with | some d => .str (fmtDate d) | _ => .none),
     ("due_date".data, match fv with | some v => .str (fmtDate v) | _ => .none),
     ("dias_mora".data, .num (dias : ℚ)),
     ("fecha_actual".data, .str (fmtDate now.days))]
  | _, _ =>
    [("invoice_date".data, .none),
     ("due_date".data, .none),
     ("dias_mora".data, .num 0),
     ("fecha_actual".data, .str (fmtDate now.days))]

/-! ## `urllib.parse.urlparse` (the fields the handler reads) -/

/-- The scheme, netloc and path components of `urlparse`. -/
structure UrlParts where
  scheme : Str
  netloc : Str
  path : Str
deriving Repr

/-- A character allowed in a URL scheme. -/
def schemeChar (c : Char) : Bool :=
  c.isAlphanum ∨ c = '+' ∨ c = '-' ∨ c = '.'

/-- A character that terminates the netloc component. -/
def netlocStop (c : Char) : Bool := c = '/' ∨ c = '?' ∨ c = '#'

/-- CPython `urlsplit`, restricted to the three components the handler
reads: split a valid scheme at the first colon (lower-cased), read the
netloc after a leading `//` up to `/`, `?` or `#`, then strip the
fragment (first `#`) and the query (first `?`) off the remainder. -/
def urlparse (s : Str) : UrlParts :=
  let pre := s.takeWhile fun c => c ≠ ':'
  let (scheme, rest) :=
    if pre.length < s.length ∧ ¬ pre.isEmpty ∧ pre.all schemeChar ∧
        (match s with | c :: _ => c.isAlpha | [] => false) = true then
      (pyLower pre, s.drop (pre.length + 1))
    else ([], s)
  let (netloc, rest2) :=
    match rest with
    | '/' :: '/' :: r => (r.takeWhile fun c => ¬ netlocStop c, r.dropWhile fun c => ¬ netlocStop c)
    | _ => ([], rest)
  let noFrag := rest2.takeWhile fun c => c ≠ '#'
  ⟨scheme, netloc, noFrag.takeWhile fun c => c ≠ '?'⟩

/-! ## `procesar_datos_factura` (source lines 136-185) -/

/-- `procesar_datos_factura`: validate the two RUT fields and rebuild the
dict with every expected field present, defaulting to `None` — except
`total_amount`, whose `get` carries the default `0.0` (returned only
when the key is absent).  A non-dict argument makes the first `.get`
raise; the `except` of lines 183-185 then returns the argument
unchanged. -/
def procesar_datos_factura (v : PyObj) : PyObj :=
  match v with
  | .dict d =>
    let supplier_rut := validar_formato_rut (dictGetD d "supplier_rut".data .none)
    let customer_rut := validar_formato_rut (dictGetD d "customer_rut".data .none)
    .dict
      [("invoice_date".data, dictGetD d "invoice_date".data .none),
       ("due_date".data, dictGetD d "due_date".data .none),
       ("total_amount".data, dictGetD d "total_amount".data (.num 0)),
       ("invoice_number".data, dictGetD d "invoice_number".data .none),
       ("currency".data, dictGetD d "currency".data .none),
       ("supplier_name".data, dictGetD d "supplier_name".data .none),
       ("supplier_rut".data, match supplier_rut with | some r => .str r | _ => .none),
       ("supplier_address".data, dictGetD d "supplier_address".data .none),
       ("supplier_giro".data, dictGetD d "supplier_giro".data .none),
       ("supplier_ciudad".data, dictGetD d "supplier_ciudad".data .none),
       ("supplier_comuna".data, dictGetD d "supplier_comuna".data .none),
       ("customer_name".data, dictGetD d "customer_name".data .none),
       ("customer_rut".data, match customer_rut with | some r => .str r | _ => .none),
       ("customer_address".data, dictGetD d "customer_address".data .none),
       ("customer_giro".data, dictGetD d "customer_giro".data .none),
       ("customer_comuna".data, dictGetD d "customer_comuna".data .none),
       ("customer_ciudad".data, dictGetD d "customer_ciudad".data .none),
       ("purchase_order".data, dictGetD d "purchase_order".data .none),
       ("reference_folio".data, dictGetD d "reference_folio".data .none)]
  | other => other

/-! ## The Lambda handler (source lines 187-467) -/

/-- Line 204 (`str(e)` of the raised `ValueError`). -/
def msgNoPath : Str :=
  "Error: El parámetro ".data ++ Char.ofNat 39 :: "path".data ++
    Char.ofNat 39 :: " no se encontró en el evento.".data

/-- Line 211. -/
def msgBadScheme : Str :=
  "Error: El path debe ser una URI de S3 válida (ej: s3://bucket/archivo.pdf)".data

/-- Line 217. -/
def msgBadUri : Str :=
  "Error: La URI de S3 no es válida. No se pudo extraer el bucket o el archivo.".data

/-- Line 235 (f-string with the key and bucket substituted). -/
def msgHead (key bucket : Str) : Str :=
  "El archivo ".data ++ key ++ " no existe en el bucket ".data ++ bucket ++
    " o no tienes permisos para accederlo".data

/-- Line 250. -/
def msgGet (e : Str) : Str := "Error al descargar archivo desde S3: ".data ++ e

/-- Line 256. -/
def msgEmpty : Str := "El archivo descargado está vacío".data

/-- Line 348. -/
def msgDegraded : Str := "Error al procesar con Gemini, devolviendo datos por defecto".data

/-- Line 451. -/
def msgSuccess : Str := "Factura procesada exitosamente!".data

/-- Models the `str(e)` of the `AttributeError` raised when `.get` is
called on the non-dict value `json.loads` produced (line 393). -/
def msgAttrGet : Str := "AttributeError: get".data

/-- Models the `str(e)` of the exception `urlparse` raises when the
`path` event entry is a truthy non-string (line 209). -/
def msgPathType : Str := "TypeError: path".data

/-- Outcome of the webhook POST of lines 425-443: a completed exchange
(with its status code, response text, and — when `raise_for_status`
fires on a status ≥ 400 — the `str(e)` of the `HTTPError`), or one of
the three caught `requests` exception kinds. -/
inductive WebhookOutcome where
  | completed : Nat → Str → Str → WebhookOutcome
  | timeout : Str → WebhookOutcome
  | connectionError : Str → WebhookOutcome
  | requestError : Str → Str → WebhookOutcome
deriving Repr

/-- The log lines the webhook try/except of lines 418-443 prints for a
given outcome.  Every failure mode is caught here: nothing escapes to
the outer handler, the outcome only reaches the logs. -/
def deliveryLogs (url : Str) (w : WebhookOutcome) : List Str :=
  match w with
  | .completed status text err =>
    let first := "Webhook response status: ".data ++ natRepr status ++ ", body: ".data ++ text
    if status < 400 then
      [first, "Datos enviados al webhook exitosamente: ".data ++ text]
    else
      -- `raise_for_status()` raises `HTTPError`, caught as `RequestException`
      [first, "Error al enviar datos al webhook: ".data ++ err,
       "Tipo de error: HTTPError".data]
  | .timeout e =>
    ["TIMEOUT al enviar datos al webhook (se agotó el tiempo de espera): ".data ++ e,
     "El servidor en ".data ++ url ++ " no respondió en el tiempo esperado. Continuando con el procesamiento...".data]
  | .connectionError e =>
    ["ERROR DE CONEXIÓN al enviar datos al webhook (no se pudo conectar al servidor): ".data ++ e,
     "Verifica que el servidor en ".data ++ url ++ " esté corriendo y accesible desde el contenedor Docker.".data,
     "Si estás usando host.docker.internal, asegúrate de que Docker tenga permisos de red.".data]
  | .requestError ty e =>
    ["Error al enviar datos al webhook: ".data ++ e,
     "Tipo de error: ".data ++ ty]

/-- Process-start configuration: the two webhook URLs read from the
environment (`os.environ.get` gives `None` when unset). -/
structure Config where
  webhook_url : Option Str
  webhook_url_dev : Option Str

/-- Behaviour of the external collaborators and clocks during one
invocation: the S3 existence check, the S3 download (raw bytes, or the
`str(e)` of the exception), the Gemini call (response text, or the
`str(e)` of the exception), the stdlib `json.loads` decoder (decoded
value, or the `str(e)` of the decode error), `datetime.now()`, the
elapsed `time.time() - start_time` at response construction, and the
webhook POST outcome. -/
structure Oracle where
  head_ok : Bool
  s3_get : Except Str (List Nat)
  gemini : Except Str Str
  jsonLoads : Str → Except Str PyObj
  now : Dt
  elapsed : ℚ
  webhook : WebhookOutcome

/-- The `{statusCode, body}` envelope; `body` is the Python structure
that `json.dumps` serialises. -/
structure Response where
  statusCode : Nat
  body : PyObj
deriving Repr

/-- The 500 body of lines 461-466. -/
def errorBody (e : Str) (elapsed : ℚ) : PyObj :=
  .dict [("error".data, .str e), ("processing_time".data, .num elapsed)]

/-- The degraded-success body of lines 345-376, returned when the Gemini
call raises: statusCode 200, all invoice fields `None`, `total_amount`
`0.0`, `dias_mora` `0`, with the current date, the caller batch id and
the document key filled in, and the failure cause under `gemini_error`.
Note there is no `processing_time` entry. -/
def degradedBody (fechaActual : Str) (qbi : PyObj) (key : Str) (geminiError : Str) : PyObj :=
  .dict
    [("message".data, .str msgDegraded),
     ("extracted_data".data, .dict
       [("invoice_date".data, .none),
        ("due_date".data, .none),
        ("total_amount".data, .num 0),
        ("invoice_number".data, .none),
        ("currency".data, .none),
        ("supplier_name".data, .none),
        ("supplier_rut".data, .none),
        ("supplier_address".data, .none),
        ("supplier_giro".data, .none),
        ("supplier_ciudad".data, .none),
        ("supplier_comuna".data, .none),
        ("customer_name".data, .none),
        ("customer_rut".data, .none),
        ("customer_address".data, .none),
        ("customer_giro".data, .none),
        ("customer_comuna".data, .none),
        ("customer_ciudad".data, .none),
        ("purchase_order".data, .none),
        ("reference_folio".data, .none),
        ("dias_mora".data, .num 0),
        ("fecha_actual".data, .str fechaActual),
        ("quoting_batch_id".data, qbi),
        ("path_document".data, .str key)]),
     ("gemini_error".data, .str geminiError)]

/-- The success body of lines 448-455. -/
def successBody (resultado : PyDict) (elapsed : ℚ) : PyObj :=
  .dict
    [("message".data, .str msgSuccess),
     ("extracted_data".data, .dict resultado),
     ("processing_time".data, .num elapsed)]

/-- Lines 209-217, the document locator: `urlparse` the path, require
the `s3` scheme, take the bucket from the netloc and the key from the
path with leading `/` stripped (`lstrip('/')`), and require both
non-empty. -/
def locateDocument (sp : Str) : Except Str (Str × Str) :=
  let u := urlparse sp
  if u.scheme ≠ "s3".data then .error msgBadScheme
  else
    let bucket := u.netloc
    let key := u.path.dropWhile fun c => c = '/'
    if bucket.isEmpty ∨ key.isEmpty then .error msgBadUri
    else .ok (bucket, key)

/-- Lines 398-406: `{**datos_validados, ...}` — the validated dict with
the processed date fields written over it and the batch id and document
key appended. -/
def mergeResultado (dv : PyDict) (fechas : PyDict) (qbi : PyObj) (key : Str) : PyDict :=
  let r := dictSet dv "invoice_date".data (dictGetD fechas "invoice_date".data .none)
  let r := dictSet r "due_date".data (dictGetD fechas "due_date".data .none)
  let r := dictSet r "dias_mora".data (dictGetD fechas "dias_mora".data .none)
  let r := dictSet r "fecha_actual".data (dictGetD fechas "fecha_actual".data .none)
  let r := dictSet r "quoting_batch_id".data qbi
  dictSet r "path_document".data (.str key)

/-- Lines 258-264 and 338-455, the phase from the mime-type computation
and the Gemini call onward.  The batch id and environment are read from
the event exactly as lines 201-202 did. -/
def handlerModelPhase (cfg : Config) (event : PyDict) (o : Oracle) (key : Str) :
    Except Str Response :=
  let qbi := dictGetD event "quoting_batch_id".data .none
  let env := dictGetD event "environment".data (.str "production".data)
  -- lines 258-264: mime type (submitted to the model; unused otherwise)
  let ft0 := match (splitOnChar '.' key).reverse with
             | last :: _ => pyLower last
             | [] => []
  let ft := if ft0 = "jpg".data then "jpeg".data else ft0
  let _mime := if ft = "pdf".data then "application/pdf".data
               else "image/".data ++ ft
  -- lines 338-376: Gemini call; failure returns the degraded 200
  match o.gemini with
  | .error g => .ok ⟨200, degradedBody (fmtDate o.now.days) qbi key g⟩
  | .ok text =>
    -- lines 379-382: strip fences and decode
    match o.jsonLoads (cleanResponseText text) with
    | .error e => .error e
    | .ok extracted =>
      -- lines 385-395
      match procesar_datos_factura extracted with
      | .dict dvd =>
        let fechas := procesar_fechas_factura
          (dictGetD dvd "invoice_date".data .none)
          (dictGetD dvd "due_date".data .none) o.now
        let resultado := mergeResultado dvd fechas qbi key
        -- lines 412-443: best-effort webhook; the outcome only
        -- produces log lines, never an escaping exception
        let url? := if pyEqStr env "development".data then cfg.webhook_url_dev
                    else cfg.webhook_url
        let _logs := match url? with
                     | some u => if ¬ u.isEmpty then deliveryLogs u o.webhook else []
                     | Option.none => []
        .ok ⟨200, successBody resultado o.elapsed⟩
      -- line 393: `.get` on a non-dict raises `AttributeError`
      | _ => .error msgAttrGet

/-- The body of the outer `try` of lines 196-455.  `Except.error` is an
exception escaping to the outer handler (reported as a 500); `Except.ok`
is one of the two explicit returns (the degraded 200 of lines 345-376 or
the success 200 of lines 448-455). -/
def handlerTry (cfg : Config) (event : PyDict) (o : Oracle) : Except Str Response :=
  let s3_path := dictGetD event "path".data .none
  -- lines 203-204: `if not s3_path: raise ValueError(...)`
  if ¬ truthy s3_path then .error msgNoPath
  else
    match s3_path with
    | .str sp =>
      match locateDocument sp with
      | .error e => .error e
      | .ok (bucket, key) =>
        -- lines 229-235: existence check
        if ¬ o.head_ok then .error (msgHead key bucket)
        else
          -- lines 238-250: download
          match o.s3_get with
          | .error e => .error (msgGet e)
          | .ok content =>
            let size := content.length
            -- lines 253-256: `if size > 10MiB: warn  elif size == 0: raise`
            if size = 0 ∧ ¬ 10 * 1024 * 1024 < size then .error msgEmpty
            else handlerModelPhase cfg event o key
    -- line 209: `urlparse` on a truthy non-string raises
    | _ => .error msgPathType

/-- The Lambda `handler` (lines 187-467): the `try` body, with any
escaping exception turned into the 500 of lines 457-467. -/
def handler (cfg : Config) (event : PyDict) (o : Oracle) : Response :=
  match handlerTry cfg event o with
  | .ok r => r
  | .error e => ⟨500, errorBody e o.elapsed⟩

/-! ## Theorems -/

/-- C8: Tax-ID validator test vectors: an already-formatted RUT is
returned unchanged, an unpunctuated one is reformatted, a numeric
portion of fewer than 7 digits gives null, and an invalid check
character gives null. -/
theorem c8_rut_test_vectors :
    validar_formato_rut (.str "12.345.678-5".data) = some "12.345.678-5".data ∧
    validar_formato_rut (.str "123456785".data) = some "12.345.678-5".data ∧
    validar_formato_rut (.str "1234-5".data) = Option.none ∧
    validar_formato_rut (.str "12345678-X".data) = Option.none :=
  ⟨rfl, rfl, rfl, rfl⟩

/-- C4 counterexample: an extracted record that carries `null` under the
`total_amount` key is normalised to a record whose `total_amount` is
still `null`, not `0.0` — `dict.get(k, default)` only substitutes the
default when the key is absent. -/
theorem c4_null_amount_counterexample :
    objGet (procesar_datos_factura (.dict [("total_amount".data, .none)]))
        "total_amount".data = some PyObj.none ∧
    PyObj.none ≠ PyObj.num 0 :=
  ⟨rfl, fun h => PyObj.noConfusion h⟩

/-- C4 amended: the normalised `total_amount` is the extracted entry
whenever the key is present (even when its value is `null`), and `0.0`
exactly when the key is absent. -/
theorem c4_total_amount_default (d : PyDict) :
    objGet (procesar_datos_factura (.dict d)) "total_amount".data =
      some (dictGetD d "total_amount".data (.num 0)) :=
  rfl

/-- C3 counterexample: the input `1234567-12` has a check portion of two
characters, yet the validator returns the formatted `1.234.567-12`
rather than null — Python `"12".isdigit()` is true, so multi-character
digit runs pass the check-digit test. -/
theorem c3_multichar_dv_counterexample :
    rutParts "1234567-12".data = some ("1234567".data, "12".data) ∧
    ("12".data).length ≠ 1 ∧
    validar_formato_rut (.str "1234567-12".data) = some "1.234.567-12".data :=
  ⟨rfl, by decide, rfl⟩

/-- C3 amended: for every string input, the validator returns a
formatted (non-null) result only when the cleaned input splits into a
numeric portion and a check portion where the check portion is a
non-empty all-digit string (of any length, not necessarily a single
character) or the letter K in either case, the numeric portion is an
all-digit run of 7-8 digits with value at least 1,000,000, and the
result is the dot-grouped numeric value followed by the upper-cased
check portion; every input violating this returns null (and no input
raises). -/
theorem c3_check_portion_characterisation (s : Str) (r : Str)
    (h : validar_formato_rut (.str s) = some r) :
    ∃ numero dv, rutParts s = some (numero, dv) ∧
      (pyIsdigit dv ∨ pyUpper dv = ['K']) ∧
      pyIsdigit numero ∧ 7 ≤ numero.length ∧ numero.length ≤ 8 ∧
      1000000 ≤ digitsToNat numero ∧
      r = groupDots (natRepr (digitsToNat numero)) ++ '-' :: pyUpper dv := by
  by_cases hs : truthy (.str s) = true
  · have h2 : rutCore s = some r := by simpa [validar_formato_rut, hs] using h
    unfold rutCore at h2
    cases hp : rutParts s with
    | none => simp [hp] at h2
    | some p =>
      obtain ⟨numero, dv⟩ := p
      simp only [hp] at h2
      by_cases h1 : pyIsdigit numero = true
      · by_cases hl : numero.length < 7 ∨ numero.length > 8
        · simp [h1, hl] at h2
        · by_cases h3 : pyIsdigit dv = true ∨ pyUpper dv = ['K']
          · by_cases h4 : digitsToNat numero < 1000000
            · simp [h1, hl, h3, h4] at h2
            · refine ⟨numero, dv, rfl, h3, h1, by omega, by omega, by omega, ?_⟩
              simp [h1, hl, h3, h4] at h2
              exact h2.symm
          · simp [h1, hl, h3] at h2
      · simp [h1] at h2
  · simp [validar_formato_rut, hs] at h

/-- Witness for the amended C3 theorem at the concrete input
`12345678-5`. -/
theorem c3_check_portion_characterisation_witness :
    ∃ numero dv, rutParts "12345678-5".data = some (numero, dv) ∧
      (pyIsdigit dv ∨ pyUpper dv = ['K']) ∧
      pyIsdigit numero ∧ 7 ≤ numero.length ∧ numero.length ≤ 8 ∧
      1000000 ≤ digitsToNat numero ∧
      "12.345.678-5".data = groupDots (natRepr (digitsToNat numero)) ++ '-' :: pyUpper dv :=
  c3_check_portion_characterisation "12345678-5".data "12.345.678-5".data rfl

/-- C6: date processing. Invoice date `2024-01-01` with no due date
derives due date `2024-01-31`; at a current date of `2024-03-01` the
overdue count is 30; with both inputs null everything is null/zero; and
in general a missing due date becomes the invoice date plus 30 calendar
days, with `dias_mora = max 0 (whole days from the due date to now)`. -/
theorem c6_fechas :
    (∀ sec : Nat, sec < 86400 →
      procesar_fechas_factura (.str "2024-01-01".data) .none
          ⟨daysFromCivil 2024 3 1, sec⟩ =
        [("invoice_date".data, .str "2024-01-01".data),
         ("due_date".data, .str "2024-01-31".data),
         ("dias_mora".data, .num 30),
         ("fecha_actual".data, .str "2024-03-01".data)]) ∧
    (∀ now : Dt, procesar_fechas_factura .none .none now =
        [("invoice_date".data, .none),
         ("due_date".data, .none),
         ("dias_mora".data, .num 0),
         ("fecha_actual".data, .str (fmtDate now.days))]) ∧
    (∀ (s : Str) (d : Int) (now : Dt), strptimeDate s = some d →
      procesar_fechas_factura (.str s) .none now =
        [("invoice_date".data, .str (fmtDate d)),
         ("due_date".data, .str (fmtDate (d + 30))),
         ("dias_mora".data, .num ((max 0 (diffDays now ⟨d + 30, 0⟩) : Int) : ℚ)),
         ("fecha_actual".data, .str (fmtDate now.days))]) := by
  have general : ∀ (s : Str) (d : Int) (now : Dt), strptimeDate s = some d →
      procesar_fechas_factura (.str s) .none now =
        [("invoice_date".data, .str (fmtDate d)),
         ("due_date".data, .str (fmtDate (d + 30))),
         ("dias_mora".data, .num ((max 0 (diffDays now ⟨d + 30, 0⟩) : Int) : ℚ)),
         ("fecha_actual".data, .str (fmtDate now.days))] := by
    intro s d now hparse
    have hne : s.isEmpty = false := by
      cases s with
      | nil => exact absurd hparse (by simp [strptimeDate, parse4Digits])
      | cons c t => rfl
    have hfield : parseDateField (.str s) = .ok (some d) := by
      simp [parseDateField, hne, hparse]
    unfold procesar_fechas_factura
    rw [hfield]
    have hdias : (if dtSecs now > (d + 30) * 86400
          then diffDays now ⟨d + 30, 0⟩ else 0) =
        max 0 (diffDays now ⟨d + 30, 0⟩) := by
      unfold diffDays dtSecs
      simp only [Nat.cast_zero, add_zero]
      rcases lt_trichotomy ((d + 30) * 86400) (now.days * 86400 + (now.secs : Int)) with hlt | heq | hgt
      · rw [if_pos (by omega)]
        have hnn : 0 ≤ Int.fdiv (now.days * 86400 + (now.secs : Int) - (d + 30) * 86400) 86400 :=
          Int.fdiv_nonneg (by omega) (by omega)
        omega
      · rw [if_neg (by omega)]
        rw [heq]
        simp
      · rw [if_neg (by omega)]
        have hneg : Int.fdiv (now.days * 86400 + (now.secs : Int) - (d + 30) * 86400) 86400 < 0 :=
          Int.fdiv_neg' (by omega) (by omega)
        omega
    simp only [parseDateField, hdias]
  refine ⟨?_, ?_, general⟩
  · intro sec hsec
    rw [general "2024-01-01".data (daysFromCivil 2024 1 1) ⟨daysFromCivil 2024 3 1, sec⟩ rfl]
    have hdm : diffDays ⟨daysFromCivil 2024 3 1, sec⟩ ⟨daysFromCivil 2024 1 1 + 30, 0⟩ = 30 := by
      unfold diffDays dtSecs
      simp only [Nat.cast_zero, add_zero]
      have harith : daysFromCivil 2024 3 1 * 86400 + (sec : Int) -
          (daysFromCivil 2024 1 1 + 30) * 86400 = (sec : Int) + 30 * 86400 := by
        have h1 : daysFromCivil 2024 3 1 = 19783 := rfl
        have h2 : daysFromCivil 2024 1 1 = 19723 := rfl
        rw [h1, h2]; ring
      rw [harith, Int.fdiv_eq_ediv _ (by omega),
        Int.add_mul_ediv_right _ _ (by omega : (86400 : Int) ≠ 0),
        Int.ediv_eq_zero_of_lt (by omega) (by omega)]
      omega
    rw [hdm]
    norm_num
    exact ⟨rfl, rfl, rfl⟩
  · intro now
    rfl

/-- Witness for C6 at concrete inputs, with the hypotheses discharged. -/
theorem c6_fechas_witness :
    (procesar_fechas_factura (.str "2024-01-01".data) .none
        ⟨daysFromCivil 2024 3 1, 3600⟩ =
      [("invoice_date".data, .str "2024-01-01".data),
       ("due_date".data, .str "2024-01-31".data),
       ("dias_mora".data, .num 30),
       ("fecha_actual".data, .str "2024-03-01".data)]) ∧
    (procesar_fechas_factura (.str "2024-02-29".data) .none ⟨19800, 120⟩ =
      [("invoice_date".data, .str (fmtDate 19782)),
       ("due_date".data, .str (fmtDate (19782 + 30))),
       ("dias_mora".data, .num ((max 0 (diffDays ⟨19800, 120⟩ ⟨19782 + 30, 0⟩) : Int) : ℚ)),
       ("fecha_actual".data, .str (fmtDate (19800 : Int)))]) :=
  ⟨c6_fechas.1 3600 (by decide),
   c6_fechas.2.2 "2024-02-29".data 19782 ⟨19800, 120⟩ (by decide)⟩

/-- Helper: once the path locates, the object exists, the download
succeeds and the blob is non-empty, the handler reaches the model
phase. -/
theorem handlerTry_reaches_model (cfg : Config) (event : PyDict) (o : Oracle)
    (sp bucket key : Str) (content : List Nat)
    (hpath : dictGetD event "path".data .none = .str sp)
    (hsp : sp.isEmpty = false)
    (hloc : locateDocument sp = .ok (bucket, key))
    (hhead : o.head_ok = true)
    (hget : o.s3_get = .ok content)
    (hsize : content.length ≠ 0) :
    handlerTry cfg event o = handlerModelPhase cfg event o key := by
  unfold handlerTry
  rw [hpath]
  simp only [truthy, hsp, Bool.not_false, if_true, hloc, hhead, Bool.not_true,
    Bool.false_eq_true, if_false, hget]
  rw [if_neg (by simp)]
  have hcond : ¬ (content.length = 0 ∧ ¬ 10 * 1024 * 1024 < content.length) := by
    simp [hsize]
  rw [if_neg hcond, if_neg (by simp)]

/-- C1: whenever the pipeline reaches the model call and the call
raises, the handler returns statusCode 200 (never 500) whose body is the
degraded record — every invoice field null, `total_amount` 0.0,
`dias_mora` 0, with `fecha_actual`, `quoting_batch_id` and
`path_document` filled in from the invocation — together with the
failure cause under `gemini_error`. -/
theorem c1_degraded_success (cfg : Config) (event : PyDict) (o : Oracle)
    (sp bucket key : Str) (content : List Nat) (g : Str)
    (hpath : dictGetD event "path".data .none = .str sp)
    (hsp : sp.isEmpty = false)
    (hloc : locateDocument sp = .ok (bucket, key))
    (hhead : o.head_ok = true)
    (hget : o.s3_get = .ok content)
    (hsize : content.length ≠ 0)
    (hgem : o.gemini = .error g) :
    handler cfg event o =
      ⟨200, degradedBody (fmtDate o.now.days)
        (dictGetD event "quoting_batch_id".data .none) key g⟩ := by
  unfold handler
  rw [handlerTry_reaches_model cfg event o sp bucket key content hpath hsp hloc hhead hget hsize]
  unfold handlerModelPhase
  rw [hgem]

/-- A concrete configuration for the example invocations below. -/
def exCfg : Config := ⟨some "http://example.com/hook".data, Option.none⟩

/-- A concrete invocation event. -/
def exEvent : PyDict :=
  [("path".data, .str "s3://bucket/docs/factura.pdf".data),
   ("quoting_batch_id".data, .str "B-77".data)]

/-- An oracle for a run in which the Gemini call raises. -/
def exOracleModelFail : Oracle :=
  ⟨true, .ok [37, 13], .error "model unavailable".data,
   fun _ => .error "Expecting value".data, ⟨19783, 3600⟩, 3 / 2,
   .timeout "timed out".data⟩

/-- Witness for C1 at a fully concrete invocation. -/
theorem c1_degraded_success_witness :
    handler exCfg exEvent exOracleModelFail =
      ⟨200, degradedBody (fmtDate (19783 : Int)) (.str "B-77".data)
        "docs/factura.pdf".data "model unavailable".data⟩ :=
  c1_degraded_success exCfg exEvent exOracleModelFail
    "s3://bucket/docs/factura.pdf".data "bucket".data "docs/factura.pdf".data
    [37, 13] "model unavailable".data rfl rfl rfl rfl rfl (by decide) rfl

/-- C2 counterexample: a concrete model-failure run produces a success
response (statusCode 200 with the degraded message) whose body has no
`processing_time` entry at all — the degraded return of lines 345-376
omits it, so not every success body carries the elapsed time. -/
theorem c2_degraded_lacks_processing_time_counterexample :
    (handler exCfg exEvent exOracleModelFail).statusCode = 200 ∧
    objGet (handler exCfg exEvent exOracleModelFail).body "message".data =
      some (.str msgDegraded) ∧
    objGet (handler exCfg exEvent exOracleModelFail).body "processing_time".data =
      Option.none :=
  ⟨rfl, rfl, rfl⟩

/-- C2 amended: the normal success response and the 500 error response
carry `processing_time` (the elapsed seconds); the degraded
model-failure success response instead carries only the message, the
default-valued data and `gemini_error`, with no `processing_time`. -/
theorem c2_processing_time_presence (cfg : Config) (event : PyDict) (o : Oracle)
    (sp bucket key : Str) (content : List Nat)
    (hpath : dictGetD event "path".data .none = .str sp)
    (hsp : sp.isEmpty = false)
    (hloc : locateDocument sp = .ok (bucket, key))
    (hhead : o.head_ok = true)
    (hget : o.s3_get = .ok content)
    (hsize : content.length ≠ 0) :
    (∀ g, o.gemini = .error g →
      (handler cfg event o).statusCode = 200 ∧
      objGet (handler cfg event o).body "processing_time".data = Option.none ∧
      objGet (handler cfg event o).body "gemini_error".data = some (.str g)) ∧
    (∀ text dobj, o.gemini = .ok text →
      o.jsonLoads (cleanResponseText text) = .ok (.dict dobj) →
      objGet (handler cfg event o).body "processing_time".data =
        some (.num o.elapsed)) ∧
    (∀ e, handlerTry cfg event o = .error e →
      handler cfg event o = ⟨500, errorBody e o.elapsed⟩ ∧
      objGet (errorBody e o.elapsed) "processing_time".data =
        some (.num o.elapsed)) := by
  have hreach := handlerTry_reaches_model cfg event o sp bucket key content
    hpath hsp hloc hhead hget hsize
  refine ⟨?_, ?_, ?_⟩
  · intro g hgem
    have : handler cfg event o =
        ⟨200, degradedBody (fmtDate o.now.days)
          (dictGetD event "quoting_batch_id".data .none) key g⟩ := by
      unfold handler
      rw [hreach]
      unfold handlerModelPhase
      rw [hgem]
    rw [this]
    exact ⟨rfl, rfl, rfl⟩
  · intro text dobj hgem hjson
    unfold handler
    rw [hreach]
    unfold handlerModelPhase
    simp only [hgem, hjson]
    cases hproc : procesar_datos_factura (.dict dobj) with
    | dict dvd => simp only [hproc]; rfl
    | none => simp [procesar_datos_factura] at hproc
    | str s => simp [procesar_datos_factura] at hproc
    | num q => simp [procesar_datos_factura] at hproc
  · intro e herr
    constructor
    · unfold handler
      rw [herr]
    · rfl

/-- An oracle for a run in which Gemini answers and the answer decodes
to a dict. -/
def exOracleOk : Oracle :=
  ⟨true, .ok [37, 13], .ok "resp".data,
   fun _ => .ok (.dict [("total_amount".data, .num 100)]), ⟨19783, 3600⟩, 3 / 2,
   .completed 200 "ok".data [].asString.data⟩

/-- Witness for the amended C2 theorem: the degraded run lacks
`processing_time`, the successful run carries it. -/
theorem c2_processing_time_presence_witness :
    ((handler exCfg exEvent exOracleModelFail).statusCode = 200 ∧
     objGet (handler exCfg exEvent exOracleModelFail).body "processing_time".data =
       Option.none ∧
     objGet (handler exCfg exEvent exOracleModelFail).body "gemini_error".data =
       some (.str "model unavailable".data)) ∧
    objGet (handler exCfg exEvent exOracleOk).body "processing_time".data =
      some (.num (3 / 2)) :=
  ⟨(c2_processing_time_presence exCfg exEvent exOracleModelFail
      "s3://bucket/docs/factura.pdf".data "bucket".data "docs/factura.pdf".data
      [37, 13] rfl rfl rfl rfl rfl (by decide)).1 "model unavailable".data rfl,
   (c2_processing_time_presence exCfg exEvent exOracleOk
      "s3://bucket/docs/factura.pdf".data "bucket".data "docs/factura.pdf".data
      [37, 13] rfl rfl rfl rfl rfl (by decide)).2.1 "resp".data
      [("total_amount".data, .num 100)] rfl rfl⟩

/-- C5: when the model answers but its text — after fence stripping —
does not decode as a structured record, the request fails as a 500 error
response, never the degraded default-valued 200: a decode exception
propagates with its message, and a decoded non-record value hits the
`.get` attribute error; both land in the outer 500 handler. -/
theorem c5_parse_failure_is_500 (cfg : Config) (event : PyDict) (o : Oracle)
    (sp bucket key : Str) (content : List Nat) (text : Str)
    (hpath : dictGetD event "path".data .none = .str sp)
    (hsp : sp.isEmpty = false)
    (hloc : locateDocument sp = .ok (bucket, key))
    (hhead : o.head_ok = true)
    (hget : o.s3_get = .ok content)
    (hsize : content.length ≠ 0)
    (hgem : o.gemini = .ok text) :
    (∀ m, o.jsonLoads (cleanResponseText text) = .error m →
      handler cfg event o = ⟨500, errorBody m o.elapsed⟩) ∧
    (∀ v, o.jsonLoads (cleanResponseText text) = .ok v → (∀ dd, v ≠ .dict dd) →
      handler cfg event o = ⟨500, errorBody msgAttrGet o.elapsed⟩) := by
  have hreach := handlerTry_reaches_model cfg event o sp bucket key content
    hpath hsp hloc hhead hget hsize
  constructor
  · intro m hjson
    unfold handler
    rw [hreach]
    unfold handlerModelPhase
    simp only [hgem, hjson]
  · intro v hjson hnd
    unfold handler
    rw [hreach]
    unfold handlerModelPhase
    simp only [hgem, hjson]
    cases v with
    | dict dd => exact absurd rfl (hnd dd)
    | none => rfl
    | str s => rfl
    | num q => rfl

/-- An oracle for a run in which the model text does not decode. -/
def exOracleParseFail : Oracle :=
  ⟨true, .ok [37], .ok "no es json".data,
   fun _ => .error "Expecting value: line 1 column 1 (char 0)".data,
   ⟨19783, 0⟩, 2, .timeout "t".data⟩

/-- Witness for C5 at a fully concrete invocation. -/
theorem c5_parse_failure_is_500_witness :
    handler exCfg exEvent exOracleParseFail =
      ⟨500, errorBody "Expecting value: line 1 column 1 (char 0)".data 2⟩ :=
  (c5_parse_failure_is_500 exCfg exEvent exOracleParseFail
      "s3://bucket/docs/factura.pdf".data "bucket".data "docs/factura.pdf".data
      [37] "no es json".data rfl rfl rfl rfl rfl (by decide) rfl).1
    "Expecting value: line 1 column 1 (char 0)".data rfl

/-- C10: the response returned to the caller — statusCode and body — is
identical whatever the webhook POST does (success, timeout, connection
failure, or a non-2xx status turned into an `HTTPError` by
`raise_for_status`); every failure mode produces only log lines. -/
theorem c10_webhook_never_alters_response :
    (∀ (cfg : Config) (event : PyDict) (head_ok : Bool)
       (s3_get : Except Str (List Nat)) (gemini : Except Str Str)
       (jsonLoads : Str → Except Str PyObj) (now : Dt) (elapsed : ℚ)
       (w1 w2 : WebhookOutcome),
       handler cfg event ⟨head_ok, s3_get, gemini, jsonLoads, now, elapsed, w1⟩ =
       handler cfg event ⟨head_ok, s3_get, gemini, jsonLoads, now, elapsed, w2⟩) ∧
    (∀ url e, deliveryLogs url (.timeout e) ≠ [] ∧
       deliveryLogs url (.connectionError e) ≠ [] ∧
       (∀ st text err, 400 ≤ st → deliveryLogs url (.completed st text err) ≠ []) ∧
       (∀ ty, deliveryLogs url (.requestError ty e) ≠ [])) := by
  constructor
  · intro cfg event head_ok s3_get gemini jsonLoads now elapsed w1 w2
    rfl
  · intro url e
    refine ⟨by simp [deliveryLogs], by simp [deliveryLogs], ?_, by simp [deliveryLogs]⟩
    intro st text err hst
    simp only [deliveryLogs]
    split <;> simp

/-- Helper: `urlparse` on any `s3://`-prefixed string: the scheme is
`s3`, the netloc runs to the first `/`, `?` or `#`, and the path is the
remainder cut at the fragment and query markers. -/
theorem urlparse_s3_uri (x : Str) :
    urlparse ("s3://".data ++ x) =
      ⟨"s3".data, x.takeWhile (fun ch => ¬ netlocStop ch),
       ((x.dropWhile (fun ch => ¬ netlocStop ch)).takeWhile
         (fun ch => ch ≠ '#')).takeWhile (fun ch => ch ≠ '?')⟩ := by
  show urlparse ('s' :: '3' :: ':' :: '/' :: '/' :: x) = _
  have h1 : (('s' :: '3' :: ':' :: '/' :: '/' :: x).takeWhile fun ch => ch ≠ ':') =
      ['s', '3'] := rfl
  simp only [urlparse, h1]
  rw [if_pos]
  · rfl
  · refine ⟨by simp, by decide, by decide, by decide⟩

/-- C7: for every URI `s3://bucket/key...` (bucket non-empty and free of
netloc terminators, key non-empty, not starting with `/` and free of
query/fragment markers) the locator yields the bucket and the key with
the leading `/` stripped; and whenever the path parameter is absent (or
falsy), the scheme is not `s3`, or the bucket or stripped key comes out
empty, the handler fails with the corresponding invalid-path error as a
500 response. -/
theorem c7_locator :
    (∀ (bucket : Str) (c : Char) (rest : Str),
      bucket ≠ [] → (∀ ch ∈ bucket, ¬ netlocStop ch) → c ≠ '/' →
      (∀ ch ∈ c :: rest, ch ≠ '?' ∧ ch ≠ '#') →
      locateDocument ("s3://".data ++ (bucket ++ '/' :: c :: rest)) =
        .ok (bucket, c :: rest)) ∧
    (∀ (cfg : Config) (event : PyDict) (o : Oracle),
      truthy (dictGetD event "path".data .none) = false →
      handler cfg event o = ⟨500, errorBody msgNoPath o.elapsed⟩) ∧
    (∀ (cfg : Config) (event : PyDict) (o : Oracle) (sp : Str),
      dictGetD event "path".data .none = .str sp → sp.isEmpty = false →
      (urlparse sp).scheme ≠ "s3".data →
      handler cfg event o = ⟨500, errorBody msgBadScheme o.elapsed⟩) ∧
    (∀ (cfg : Config) (event : PyDict) (o : Oracle) (sp : Str),
      dictGetD event "path".data .none = .str sp → sp.isEmpty = false →
      (urlparse sp).scheme = "s3".data →
      ((urlparse sp).netloc.isEmpty ∨
        ((urlparse sp).path.dropWhile fun ch => ch = '/').isEmpty) →
      handler cfg event o = ⟨500, errorBody msgBadUri o.elapsed⟩) := by
  refine ⟨?_, ?_, ?_, ?_⟩
  · intro bucket c rest hb hbstop hc hcr
    unfold locateDocument
    rw [urlparse_s3_uri (bucket ++ '/' :: c :: rest)]
    have hnet : ((bucket ++ '/' :: c :: rest).takeWhile fun ch => ¬ netlocStop ch) =
        bucket := by
      rw [List.takeWhile_append_of_pos (by simpa using hbstop)]
      simp [netlocStop]
    have hdrop : ((bucket ++ '/' :: c :: rest).dropWhile fun ch => ¬ netlocStop ch) =
        '/' :: c :: rest := by
      rw [List.dropWhile_append_of_pos (by simpa using hbstop)]
      simp [netlocStop]
    have hfrag : (('/' :: c :: rest).takeWhile fun ch => ch ≠ '#') = '/' :: c :: rest := by
      rw [List.takeWhile_eq_self_iff]
      intro ch hch
      rcases List.mem_cons.mp hch with h | h
      · simp [h]
      · simpa using (hcr ch h).2
    have hquery : (('/' :: c :: rest).takeWhile fun ch => ch ≠ '?') = '/' :: c :: rest := by
      rw [List.takeWhile_eq_self_iff]
      intro ch hch
      rcases List.mem_cons.mp hch with h | h
      · simp [h]
      · simpa using (hcr ch h).1
    simp only [hnet, hdrop, hfrag, hquery]
    rw [if_neg (by simp)]
    have hkey : (('/' :: c :: rest).dropWhile fun ch => ch = '/') = c :: rest := by
      rw [List.dropWhile_cons_of_pos (by simp), List.dropWhile_cons_of_neg (by simpa using hc)]
    simp only [hkey]
    rw [if_neg (by simp [hb])]
  · intro cfg event o hfalsy
    unfold handler handlerTry
    simp only [hfalsy]
    rfl
  · intro cfg event o sp hpath hsp hscheme
    unfold handler handlerTry locateDocument
    rw [hpath]
    simp only [truthy, hsp, Bool.not_false, if_true]
    rw [if_pos hscheme]
    rfl
  · intro cfg event o sp hpath hsp hscheme hempty
    unfold handler handlerTry locateDocument
    rw [hpath]
    simp only [truthy, hsp, Bool.not_false, if_true]
    rw [if_neg (show ¬ ((urlparse sp).scheme ≠ "s3".data) by simp [hscheme])]
    rw [if_pos hempty]
    rfl

/-- Witness for C7: concrete locator success and the three concrete
failure shapes, each a 500. -/
theorem c7_locator_witness :
    locateDocument ("s3://".data ++ ("bucket".data ++ '/' :: 'k' :: "ey/sub.pdf".data)) =
      .ok ("bucket".data, 'k' :: "ey/sub.pdf".data) ∧
    handler exCfg [] exOracleModelFail = ⟨500, errorBody msgNoPath (3 / 2)⟩ ∧
    handler exCfg [("path".data, .str "http://bucket/key".data)] exOracleModelFail =
      ⟨500, errorBody msgBadScheme (3 / 2)⟩ ∧
    handler exCfg [("path".data, .str "s3:///key".data)] exOracleModelFail =
      ⟨500, errorBody msgBadUri (3 / 2)⟩ :=
  ⟨c7_locator.1 "bucket".data 'k' "ey/sub.pdf".data (by decide) (by decide)
      (by decide) (by decide),
   c7_locator.2.1 exCfg [] exOracleModelFail rfl,
   c7_locator.2.2.1 exCfg [("path".data, .str "http://bucket/key".data)]
      exOracleModelFail "http://bucket/key".data rfl rfl (by decide),
   c7_locator.2.2.2 exCfg [("path".data, .str "s3:///key".data)]
      exOracleModelFail "s3:///key".data rfl rfl (by decide) (by decide)⟩

/-- Witness for C10: two concrete runs differing only in the webhook
outcome return the same response, and a concrete non-2xx completion is
logged. -/
theorem c10_webhook_never_alters_response_witness :
    handler exCfg exEvent
        ⟨true, .ok [37, 13], .error "model unavailable".data,
         (fun _ => .error "Expecting value".data), ⟨19783, 3600⟩, 3 / 2,
         .timeout "x".data⟩ =
      handler exCfg exEvent
        ⟨true, .ok [37, 13], .error "model unavailable".data,
         (fun _ => .error "Expecting value".data), ⟨19783, 3600⟩, 3 / 2,
         .connectionError "y".data⟩ ∧
    deliveryLogs "http://example.com/hook".data
      (.completed 404 "not found".data "404 Client Error".data) ≠ [] :=
  ⟨c10_webhook_never_alters_response.1 exCfg exEvent true (.ok [37, 13])
      (.error "model unavailable".data) (fun _ => .error "Expecting value".data)
      ⟨19783, 3600⟩ (3 / 2) (.timeout "x".data) (.connectionError "y".data),
   (c10_webhook_never_alters_response.2 "http://example.com/hook".data
      "e".data).2.2.1 404 "not found".data "404 Client Error".data (by decide)⟩

/-! ## Fence-stripping round trip (C9): lemmas about `replaceAll` -/

/-- The fuel in `raGo` is irrelevant as long as it covers the string
length. -/
theorem raGo_fuel (pat : Str) : ∀ (f1 f2 : Nat) (s : Str),
    s.length ≤ f1 → s.length ≤ f2 → raGo pat f1 s = raGo pat f2 s := by
  intro f1
  induction f1 with
  | zero =>
    intro f2 s h1 _
    have hs : s = [] := List.length_eq_zero.mp (Nat.le_zero.mp h1)
    subst hs
    cases f2 <;> rfl
  | succ a ih =>
    intro f2 s h1 h2
    cases s with
    | nil => cases f2 <;> rfl
    | cons c rest =>
      cases f2 with
      | zero => simp at h2
      | succ b =>
        simp only [raGo]
        by_cases hp : pat ≠ [] ∧ pat.isPrefixOf (c :: rest)
        · rw [if_pos hp, if_pos hp]
          have hplen : 1 ≤ pat.length := by
            cases hq : pat with
            | nil => exact absurd hq hp.1
            | cons x xs => simp
          apply ih
          · simp only [List.length_drop, List.length_cons]
            simp only [List.length_cons] at h1
            omega
          · simp only [List.length_drop, List.length_cons]
            simp only [List.length_cons] at h2
            omega
        · rw [if_neg hp, if_neg hp]
          exact congrArg _ (ih b rest (by simp at h1; omega) (by simp at h2; omega))

/-- Step equation of `replaceAll` on a cons cell. -/
theorem replaceAll_cons (pat : Str) (c : Char) (rest : Str) :
    replaceAll pat (c :: rest) =
      if pat ≠ [] ∧ pat.isPrefixOf (c :: rest) then
        replaceAll pat ((c :: rest).drop pat.length)
      else c :: replaceAll pat rest := by
  show raGo pat (c :: rest).length (c :: rest) = _
  simp only [List.length_cons, raGo]
  by_cases hp : pat ≠ [] ∧ pat.isPrefixOf (c :: rest)
  · rw [if_pos hp, if_pos hp]
    have hplen : 1 ≤ pat.length := by
      cases hq : pat with
      | nil => exact absurd hq hp.1
      | cons x xs => simp
    exact raGo_fuel pat rest.length ((c :: rest).drop pat.length).length _
      (by simp only [List.length_drop, List.length_cons]; omega) (le_refl _)
  · rw [if_neg hp, if_neg hp]
    rfl

/-- If the pattern does not occur in the string, `replace` leaves it
unchanged. -/
theorem replaceAll_of_no_occurrence (pat : Str) :
    ∀ s, ¬ pat <:+: s → replaceAll pat s = s := by
  intro s
  induction s with
  | nil => intro _; rfl
  | cons c rest ih =>
    intro hocc
    rw [replaceAll_cons]
    rw [if_neg ?_]
    · rw [ih fun h => hocc (List.infix_cons h)]
    · rintro ⟨-, hpre⟩
      exact hocc (List.isPrefixOf_iff_prefix.mp hpre).isInfix

/-- An occurrence of `pat` in `xs ++ ys` lies in `xs`, lies in `ys`, or
spans the boundary, splitting `pat` into a non-trivial suffix of `xs`
followed by a non-trivial prefix of `ys`. -/
theorem infix_append_split {pat xs ys : Str} (h : pat <:+: xs ++ ys) :
    pat <:+: xs ∨ pat <:+: ys ∨
    ∃ p1 p2, p1 ++ p2 = pat ∧ p1 ≠ [] ∧ p2 ≠ [] ∧ p1 <:+ xs ∧ p2 <+: ys := by
  obtain ⟨s, t, hst⟩ := h
  rw [List.append_assoc] at hst
  rcases List.append_eq_append_iff.mp hst with ⟨a, hxs, hpt⟩ | ⟨c, hs, hys⟩
  · rcases List.append_eq_append_iff.mp hpt with ⟨w, haw, ht⟩ | ⟨w, hpat, hys⟩
    · exact Or.inl ⟨s, w, by rw [hxs, haw, List.append_assoc]⟩
    · cases ha : a with
      | nil =>
        refine Or.inr (Or.inl ⟨[], t, ?_⟩)
        subst ha
        simp at hpat
        rw [← hpat] at hys
        simp [hys]
      | cons a0 arest =>
        cases hw : w with
        | nil =>
          refine Or.inl ⟨s, [], ?_⟩
          subst hw
          simp at hpat
          rw [← hpat] at hxs
          simp [hxs]
        | cons w0 wrest =>
          refine Or.inr (Or.inr ⟨a, w, hpat.symm, by simp [ha], by simp [hw],
            ⟨s, hxs.symm⟩, ⟨t, hys.symm⟩⟩)
  · exact Or.inr (Or.inl ⟨c, t, by rw [hys, List.append_assoc]⟩)

/-- A pattern made of non-whitespace characters cannot use any part of a
whitespace run on its left: its occurrences in `ws ++ z` are occurrences
in `z`. -/
theorem not_infix_ws_left {pat ws z : Str} (hne : pat ≠ [])
    (hnp : ∀ c ∈ pat, pySpace c = false) (hws : ∀ c ∈ ws, pySpace c = true)
    (h : ¬ pat <:+: z) : ¬ pat <:+: ws ++ z := by
  intro hocc
  rcases infix_append_split hocc with hin | hin | ⟨p1, p2, hsplit, h1, _, hsuf, _⟩
  · cases hp : pat with
    | nil => exact hne hp
    | cons c rest =>
      have hc : c ∈ ws := hin.subset (by simp [hp])
      have := hnp c (by simp [hp])
      rw [hws c hc] at this
      exact Bool.true_eq_false.mp this
  · exact h hin
  · cases hq : p1 with
    | nil => exact h1 hq
    | cons c rest =>
      have hc : c ∈ ws := hsuf.subset (by simp [hq])
      have hcp : c ∈ pat := by rw [← hsplit]; simp [hq]
      have := hnp c hcp
      rw [hws c hc] at this
      exact Bool.true_eq_false.mp this

/-- Mirror image of `not_infix_ws_left`: a non-whitespace pattern cannot
use any part of a whitespace run on its right. -/
theorem not_infix_ws_right {pat ws z : Str} (hne : pat ≠ [])
    (hnp : ∀ c ∈ pat, pySpace c = false) (hws : ∀ c ∈ ws, pySpace c = true)
    (h : ¬ pat <:+: z) : ¬ pat <:+: z ++ ws := by
  intro hocc
  rcases infix_append_split hocc with hin | hin | ⟨p1, p2, hsplit, _, h2, _, hpre⟩
  · exact h hin
  · cases hp : pat with
    | nil => exact hne hp
    | cons c rest =>
      have hc : c ∈ ws := hin.subset (by simp [hp])
      have := hnp c (by simp [hp])
      rw [hws c hc] at this
      exact Bool.true_eq_false.mp this
  · cases hq : p2 with
    | nil => exact h2 hq
    | cons c rest =>
      have hc : c ∈ ws := hpre.subset (by simp [hq])
      have hcp : c ∈ pat := by rw [← hsplit]; simp [hq]
      have := hnp c hcp
      rw [hws c hc] at this
      exact Bool.true_eq_false.mp this

/-- A pattern that is a prefix of `xs ++ ys` with `xs` non-empty is an
infix of `xs ++ ys.take (pat.length - 1)`. -/
theorem infix_take_of_prefix_append {pat xs ys : Str} (hxs : xs ≠ [])
    (h : pat <+: xs ++ ys) : pat <:+: xs ++ ys.take (pat.length - 1) := by
  by_cases hlen : pat.length ≤ xs.length
  · have hpfx : pat <+: xs :=
      List.prefix_of_prefix_length_le h (List.prefix_append xs ys) hlen
    exact hpfx.isInfix.trans ⟨[], ys.take (pat.length - 1), by simp⟩
  · obtain ⟨t, ht⟩ := h
    have hxp : xs <+: pat :=
      List.prefix_of_prefix_length_le (List.prefix_append xs ys) ⟨t, ht⟩ (by omega)
    obtain ⟨w, hw⟩ := hxp
    have hwys : w ++ (t : Str) = ys := by
      have h0 := ht
      rw [← hw, List.append_assoc] at h0
      exact List.append_cancel_left h0
    have hwlen : w.length ≤ pat.length - 1 := by
      have h1 : xs.length + w.length = pat.length := by
        rw [← hw]; simp
      have h2 : 1 ≤ xs.length := by
        cases hq : xs with
        | nil => exact absurd hq hxs
        | cons a b => simp
      omega
    have hwtake : w <+: ys.take (pat.length - 1) := by
      have hw2 : (ys.take (pat.length - 1)).take w.length = w := by
        rw [List.take_take, Nat.min_eq_left hwlen, ← hwys, List.take_left]
      exact hw2 ▸ List.take_prefix _ _
    have hfin : xs ++ w <+: xs ++ ys.take (pat.length - 1) :=
      (List.prefix_append_right_inj xs).mpr hwtake
    rw [hw] at hfin
    exact hfin.isInfix

/-- Deleting a non-occurring pattern walks over a clean left part:
if no occurrence of `pat` starts inside `xs` (also not one leaking into
the first `pat.length - 1` characters of `ys`), the replace distributes
over the append. -/
theorem replaceAll_append (pat : Str) :
    ∀ xs ys, ¬ pat <:+: xs ++ ys.take (pat.length - 1) →
      replaceAll pat (xs ++ ys) = xs ++ replaceAll pat ys := by
  intro xs
  induction xs with
  | nil => intro ys _; rfl
  | cons a xs' ih =>
    intro ys h
    rw [List.cons_append, replaceAll_cons]
    rw [if_neg ?_]
    · rw [ih ys fun hocc => h (List.infix_cons hocc)]
      rfl
    · rintro ⟨-, hpre⟩
      exact h (infix_take_of_prefix_append (by simp)
        (List.isPrefixOf_iff_prefix.mp hpre))

/-- The head surviving a `dropWhile` fails the predicate. -/
theorem dropWhile_head_false {p : Char → Bool} :
    ∀ {l : Str} {c : Char} {r : Str}, l.dropWhile p = c :: r → p c = false := by
  intro l
  induction l with
  | nil => intro c r h; simp at h
  | cons a t ih =>
    intro c r h
    rw [List.dropWhile_cons] at h
    split at h
    · exact ih h
    · next hpa => cases h; simpa using hpa

/-- `dropWhile` is idempotent. -/
theorem dropWhile_idem (p : Char → Bool) (l : Str) :
    (l.dropWhile p).dropWhile p = l.dropWhile p := by
  cases h : l.dropWhile p with
  | nil => rfl
  | cons c r => rw [List.dropWhile_cons_of_neg (by simp [dropWhile_head_false h])]

/-- Stripping a string that starts and ends with a non-space character
and is wrapped in whitespace returns exactly that string. -/
theorem pyStrip_sandwich {ws1 ws4 x : Str}
    (h1 : ∀ c ∈ ws1, pySpace c = true) (h4 : ∀ c ∈ ws4, pySpace c = true)
    {c0 cl : Char} {xm xr : Str} (hx : x = c0 :: xm) (hxr : x.reverse = cl :: xr)
    (hc0 : pySpace c0 = false) (hcl : pySpace cl = false) :
    pyStrip (ws1 ++ x ++ ws4) = x := by
  have e1 : (ws1 ++ x ++ ws4).dropWhile pySpace = x ++ ws4 := by
    rw [List.append_assoc, List.dropWhile_append_of_pos h1, hx, List.cons_append,
      List.dropWhile_cons_of_neg (by simp [hc0])]
  have e3 : (ws4.reverse ++ x.reverse).dropWhile pySpace = x.reverse := by
    rw [List.dropWhile_append_of_pos
        (fun c hc => h4 c (List.mem_reverse.mp hc)), hxr,
      List.dropWhile_cons_of_neg (by simp [hcl])]
  unfold pyStrip
  rw [e1, List.reverse_append, e3, List.reverse_reverse]

/-- Stripping is blind to extra surrounding whitespace. -/
theorem pyStrip_ws_wrap {ws2 ws3 t : Str}
    (h2 : ∀ c ∈ ws2, pySpace c = true) (h3 : ∀ c ∈ ws3, pySpace c = true) :
    pyStrip (ws2 ++ t ++ ws3) = pyStrip t := by
  unfold pyStrip
  rw [List.append_assoc, List.dropWhile_append_of_pos h2, List.dropWhile_append]
  by_cases hu : (t.dropWhile pySpace).isEmpty = true
  · have hnil : t.dropWhile pySpace = [] := by
      cases h : t.dropWhile pySpace with
      | nil => rfl
      | cons c r => rw [h] at hu; simp at hu
    have hnil3 : ws3.dropWhile pySpace = [] := List.dropWhile_eq_nil_iff.mpr h3
    rw [if_pos hu, hnil, hnil3]
  · rw [if_neg hu, List.reverse_append,
      List.dropWhile_append_of_pos (fun c hc => h3 c (List.mem_reverse.mp hc))]

/-- The stripped string occurs inside the original. -/
theorem pyStrip_occurs (t : Str) : pyStrip t <:+: t := by
  have h1 : t.dropWhile pySpace <:+ t := List.dropWhile_suffix _
  have h2 : (t.dropWhile pySpace).reverse.dropWhile pySpace <:+
      (t.dropWhile pySpace).reverse := List.dropWhile_suffix _
  have h3 : pyStrip t <+: t.dropWhile pySpace := by
    have h4 := h2
    rw [show (t.dropWhile pySpace).reverse.dropWhile pySpace =
        (((t.dropWhile pySpace).reverse.dropWhile pySpace).reverse).reverse by
      rw [List.reverse_reverse]] at h4
    exact (List.reverse_suffix).mp h4
  exact h3.isInfix.trans h1.isInfix

/-- `pyStrip` is idempotent. -/
theorem pyStrip_idem (t : Str) : pyStrip (pyStrip t) = pyStrip t := by
  have hrev : (pyStrip t).reverse.dropWhile pySpace = (pyStrip t).reverse := by
    unfold pyStrip
    rw [List.reverse_reverse]
    exact dropWhile_idem _ _
  have hfwd : (pyStrip t).dropWhile pySpace = pyStrip t := by
    cases hw : (t.dropWhile pySpace).reverse.dropWhile pySpace with
    | nil =>
      unfold pyStrip
      rw [hw]
      rfl
    | cons c r =>
      -- the last character of the doubly-stripped word is the head of
      -- the first `dropWhile`, hence fails `pySpace`
      have hsuf : ∃ pre, pre ++ (c :: r) = (t.dropWhile pySpace).reverse := by
        have hs : (t.dropWhile pySpace).reverse.dropWhile pySpace <:+
            (t.dropWhile pySpace).reverse := List.dropWhile_suffix pySpace
        rw [hw] at hs
        exact hs
      obtain ⟨pre, hpre⟩ := hsuf
      have hlast2 : (c :: r : Str).getLast? = (t.dropWhile pySpace).head? := by
        have h0 : ((pre ++ (c :: r) : Str)).getLast? = (c :: r : Str).getLast? := by
          rw [List.getLast?_append]
          cases hgl : (c :: r : Str).getLast? with
          | none => simp at hgl
          | some d => simp
        rw [hpre] at h0
        rw [← h0, List.getLast?_reverse]
      have hheadne : ∃ u0 us, t.dropWhile pySpace = u0 :: us := by
        cases hh : t.dropWhile pySpace with
        | nil => rw [hh] at hpre; simp at hpre
        | cons u us => exact ⟨u, us, rfl⟩
      obtain ⟨u0, us, hu0⟩ := hheadne
      have hu0ns : pySpace u0 = false := dropWhile_head_false hu0
      have hlast3 : (c :: r : Str).getLast? = some u0 := by
        rw [hlast2, hu0]
        rfl
      unfold pyStrip
      rw [hw]
      cases hrw : (c :: r : Str).reverse with
      | nil => simp at hrw
      | cons d ds =>
        have hd : d = u0 := by
          have hh2 : (c :: r : Str).reverse.head? = some u0 := by
            rw [List.head?_reverse]
            exact hlast3
          rw [hrw] at hh2
          simpa using hh2
        rw [List.dropWhile_cons_of_neg (by simp [hd, hu0ns])]
  show ((((pyStrip t).dropWhile pySpace).reverse).dropWhile pySpace).reverse = pyStrip t
  rw [hfwd, hrev, List.reverse_reverse]

/-- A string whose first and last characters are non-space strips to
itself. -/
theorem pyStrip_eq_self {x : Str}
    (hh : ∀ c, x.head? = some c → pySpace c = false)
    (hl : ∀ c, x.getLast? = some c → pySpace c = false) : pyStrip x = x := by
  unfold pyStrip
  have e1 : x.dropWhile pySpace = x := by
    cases hx : x with
    | nil => rfl
    | cons c r =>
      rw [List.dropWhile_cons_of_neg (by simp [hh c (by rw [hx]; rfl)])]
  rw [e1]
  have e2 : x.reverse.dropWhile pySpace = x.reverse := by
    cases hx : x.reverse with
    | nil => rfl
    | cons c r =>
      have hc : x.getLast? = some c := by
        rw [← List.head?_reverse, hx]
        rfl
      rw [List.dropWhile_cons_of_neg (by simp [hl c hc])]
  rw [e2, List.reverse_reverse]

/-- A non-whitespace pattern occurring neither in `t` nor in `z` does not
occur in `t ++ (ws ++ z)` when `ws` is a non-empty whitespace run. -/
theorem not_infix_mid {pat t ws z : Str} (hne : pat ≠ [])
    (hnp : ∀ c ∈ pat, pySpace c = false) (hws : ∀ c ∈ ws, pySpace c = true)
    (hwsne : ws ≠ []) (hnt : ¬ pat <:+: t) (hz : ¬ pat <:+: z) :
    ¬ pat <:+: t ++ (ws ++ z) := by
  intro hocc
  rcases infix_append_split hocc with hin | hin | ⟨p1, p2, hsplit, h1, h2, hsuf, hpre⟩
  · exact hnt hin
  · exact not_infix_ws_left hne hnp hws hz hin
  · cases hq : p2 with
    | nil => exact h2 hq
    | cons q qs =>
      cases hw : ws with
      | nil => exact hwsne hw
      | cons w0 ws' =>
        subst hq hw
        obtain ⟨u, hu⟩ := hpre
        rw [List.cons_append] at hu
        injection hu with hqw _
        have hqpat : q ∈ pat := by rw [← hsplit]; simp
        have hsp := hws q (by rw [hqw]; simp)
        have hnsp := hnp q hqpat
        rw [hsp] at hnsp
        exact Bool.true_eq_false.mp hnsp

/-- `replace` deletes a leading copy of the pattern and continues. -/
theorem replaceAll_leading_pattern (pat R : Str) (hne : pat ≠ []) :
    replaceAll pat (pat ++ R) = replaceAll pat R := by
  cases hp : pat with
  | nil => exact absurd hp hne
  | cons p ps =>
    subst hp
    rw [List.cons_append, replaceAll_cons]
    rw [if_pos ⟨by simp, List.isPrefixOf_iff_prefix.mpr
      (by rw [← List.cons_append]; exact List.prefix_append _ R)⟩]
    rw [← List.cons_append, List.drop_left]

/-- The key C9 computation: cleaning a model response that wraps `t` in
```` ```json ```` / ```` ``` ```` fences with surrounding whitespace
gives the same text as cleaning `t` itself, provided `t` contains no
fence marker. -/
theorem clean_wrapped (t ws1 ws2 ws3 ws4 : Str)
    (h1 : ∀ c ∈ ws1, pySpace c = true) (h2 : ∀ c ∈ ws2, pySpace c = true)
    (h3 : ∀ c ∈ ws3, pySpace c = true) (h4 : ∀ c ∈ ws4, pySpace c = true)
    (hw3 : ws3 ≠ []) (hnf : ¬ fence3 <:+: t) :
    cleanResponseText
        (ws1 ++ (fenceJson ++ (ws2 ++ (t ++ (ws3 ++ fence3)))) ++ ws4) =
      cleanResponseText t := by
  have hnfj : ¬ fenceJson <:+: t := fun h =>
    hnf ((show fence3 <+: fenceJson by decide).isInfix.trans h)
  -- the wrapped core starts and ends with a backtick, so the outer strip
  -- removes exactly ws1 and ws4
  have hstrip1 : pyStrip
      (ws1 ++ (fenceJson ++ (ws2 ++ (t ++ (ws3 ++ fence3)))) ++ ws4) =
      fenceJson ++ (ws2 ++ (t ++ (ws3 ++ fence3))) := by
    rw [pyStrip_ws_wrap h1 h4]
    apply pyStrip_eq_self
    · intro c hc
      cases hc
      decide
    · intro c hc
      have hgl : (fenceJson ++ (ws2 ++ (t ++ (ws3 ++ fence3)))).getLast? =
          some '\x60' := by
        simp [List.getLast?_append, show fence3.getLast? = some '\x60' from rfl]
      rw [hgl] at hc
      cases hc
      decide
  -- the "```json" replace removes the opening fence and nothing else
  have hnoJrest : ¬ fenceJson <:+: t ++ (ws3 ++ fence3) :=
    not_infix_mid (by decide) (by decide) h3 hw3 hnfj
      (fun h => absurd h.length_le (by decide))
  have hnoJ : ¬ fenceJson <:+: ws2 ++ (t ++ (ws3 ++ fence3)) :=
    not_infix_ws_left (by decide) (by decide) h2 hnoJrest
  have hrepJ : replaceAll fenceJson
      (fenceJson ++ (ws2 ++ (t ++ (ws3 ++ fence3)))) =
      ws2 ++ (t ++ (ws3 ++ fence3)) := by
    rw [replaceAll_leading_pattern _ _ (by decide)]
    exact replaceAll_of_no_occurrence _ _ hnoJ
  -- the "```" replace removes the closing fence and nothing else
  have hno3take : ¬ fence3 <:+: (ws2 ++ (t ++ ws3)) ++ fence3.take (fence3.length - 1) := by
    have hz : ¬ fence3 <:+: fence3.take (fence3.length - 1) := by
      intro h
      exact absurd h.length_le (by decide)
    have hmid : ¬ fence3 <:+: t ++ (ws3 ++ fence3.take (fence3.length - 1)) :=
      not_infix_mid (by decide) (by decide) h3 hw3 hnf hz
    have base : ¬ fence3 <:+:
        ws2 ++ (t ++ (ws3 ++ fence3.take (fence3.length - 1))) :=
      not_infix_ws_left (by decide) (by decide) h2 hmid
    have heq : (ws2 ++ (t ++ ws3)) ++ fence3.take (fence3.length - 1) =
        ws2 ++ (t ++ (ws3 ++ fence3.take (fence3.length - 1))) := by
      simp [List.append_assoc]
    rw [heq]
    exact base
  have hrep3 : replaceAll fence3 (ws2 ++ (t ++ (ws3 ++ fence3))) =
      ws2 ++ (t ++ ws3) := by
    have hassoc : ws2 ++ (t ++ (ws3 ++ fence3)) =
        (ws2 ++ (t ++ ws3)) ++ fence3 := by
      simp [List.append_assoc]
    rw [hassoc, replaceAll_append fence3 _ _ hno3take]
    have h33 : replaceAll fence3 fence3 = [] := rfl
    rw [h33, List.append_nil]
  -- assemble the wrapped side
  have hlhs : cleanResponseText
      (ws1 ++ (fenceJson ++ (ws2 ++ (t ++ (ws3 ++ fence3)))) ++ ws4) =
      pyStrip t := by
    unfold cleanResponseText
    rw [hstrip1, hrepJ, hrep3]
    have : ws2 ++ (t ++ ws3) = ws2 ++ t ++ ws3 := by
      rw [List.append_assoc]
    rw [this, pyStrip_ws_wrap h2 h3]
  -- the unwrapped side: nothing to replace, stripping is idempotent
  have hrhs : cleanResponseText t = pyStrip t := by
    unfold cleanResponseText
    rw [replaceAll_of_no_occurrence _ _
        (fun h => hnfj (h.trans (pyStrip_occurs t))),
      replaceAll_of_no_occurrence _ _
        (fun h => hnf (h.trans (pyStrip_occurs t))),
      pyStrip_idem]
  rw [hlhs, hrhs]

/-- C9: round-trip of fence stripping — for every text `t` containing no
code-fence marker, any decoder applied to the parser's cleaned form of
`t` wrapped in ```` ```json ```` / ```` ``` ```` fences (with
surrounding whitespace) yields exactly the same decoded record as on the
unwrapped `t`. -/
theorem c9_fence_roundtrip (decode : Str → Except Str PyObj)
    (t ws1 ws2 ws3 ws4 : Str)
    (h1 : ∀ c ∈ ws1, pySpace c = true) (h2 : ∀ c ∈ ws2, pySpace c = true)
    (h3 : ∀ c ∈ ws3, pySpace c = true) (h4 : ∀ c ∈ ws4, pySpace c = true)
    (hw3 : ws3 ≠ []) (hnf : ¬ fence3 <:+: t) :
    decode (cleanResponseText
        (ws1 ++ (fenceJson ++ (ws2 ++ (t ++ (ws3 ++ fence3)))) ++ ws4)) =
      decode (cleanResponseText t) := by
  rw [clean_wrapped t ws1 ws2 ws3 ws4 h1 h2 h3 h4 hw3 hnf]

/-- A concrete decoder for the C9 witness. -/
def exDecode : Str → Except Str PyObj := fun s => .ok (.str s)

/-- Witness for C9 on a concrete JSON text wrapped in fences with
newlines and trailing blanks. -/
theorem c9_fence_roundtrip_witness :
    exDecode (cleanResponseText
        ("  ".data ++ (fenceJson ++ ("\n".data ++
          ("\x7b \"total_amount\": 5 \x7d".data ++ ("\n".data ++ fence3)))) ++
          " ".data)) =
      exDecode (cleanResponseText "\x7b \"total_amount\": 5 \x7d".data) :=
  c9_fence_roundtrip exDecode "\x7b \"total_amount\": 5 \x7d".data
    "  ".data "\n".data "\n".data " ".data
    (by decide) (by decide) (by decide) (by decide) (by decide) (by decide)

end FacturaReader
